import Mathlib

/-
Shallow embedding of the agent loader of `agentduel_agents` (file
`src/agentduel_agents/base.py`) and of the dispatch logic of the
multi-game example agent (`src/agentduel_agents/examples/multi_game_agent.py`).

A Python module, once executed, is modelled as the list of its top-level
attributes in `dir(module)` order (Python's `dir` returns the names sorted),
each attribute abstracted to exactly the observations the loader makes of it:
`isinstance(obj, type)`, identity with `AgentBase` / `AgentProtocol`,
`hasattr(obj, "on_turn")`, `getattr(obj, "GAME", None)`, whether calling the
object raises, and whether the resulting instance has a callable `on_turn`.
Effects (executing the module file, calling the constructor, writing into the
process-wide `sys.modules` registry) are tracked as explicit flags in the
load outcome.
-/

namespace AgentDuel

/-- A top-level module attribute as observed by the loader. -/
structure PyObj where
  /-- `isinstance(obj, type)` -/
  isType : Bool
  /-- `obj is AgentBase` (identity with the contract base class) -/
  isAgentBase : Bool
  /-- `obj is AgentProtocol` (identity with the contract protocol type) -/
  isAgentProtocol : Bool
  /-- `hasattr(obj, "on_turn")` -/
  hasOnTurn : Bool
  /-- `getattr(obj, "GAME", None)`; `none` models Python `None` / absent -/
  game : Option String
  /-- calling `obj()` raises an exception -/
  callFails : Bool
  /-- `hasattr(obj(), "on_turn")` on the instance produced by a successful call -/
  instHasOnTurn : Bool
  /-- `callable(obj().on_turn)` on that instance -/
  instOnTurnCallable : Bool
deriving DecidableEq, Repr

/-- An executed Python module: whether executing its body raised, and its
top-level attributes in `dir(module)` order. -/
structure PyModule where
  /-- `spec.loader.exec_module(module)` raises -/
  execFault : Bool
  /-- `(name, getattr(module, name))` for `name in dir(module)` -/
  attrs : List (String × PyObj)
deriving DecidableEq, Repr

/-- The input of one `load_agent` / `get_agent_game` call: the observable
facts about the resolved path and the module behind it. -/
structure LoadInput where
  /-- `path.exists()` after `Path(agent_path).resolve()` -/
  pathExists : Bool
  /-- `path.suffix == ".py"` -/
  isPyFile : Bool
  /-- `spec_from_file_location` returned `None` or had no loader -/
  specFails : Bool
  /-- the module the file evaluates to -/
  mod : PyModule
deriving DecidableEq, Repr

/-- The failure kinds of `AgentLoadError`, one per distinct `raise` site of
`load_agent` (the spec names them NotFound, InvalidFormat, ExecutionFailure,
ContractViolation, GameMismatch). -/
inductive LoadErr where
  | notFound
  | invalidFormat
  | executionFailure
  | contractViolation
  | gameMismatch
deriving DecidableEq, Repr

/-- The agent handle `load_agent` returns: the instance observations plus the
candidate class's declared GAME tag. -/
structure AgentHandle where
  onTurnPresent : Bool
  onTurnCallable : Bool
  game : Option String
deriving DecidableEq, Repr

/-- Result of a `load_agent` call together with its observable effects. -/
structure LoadOutcome where
  result : Except LoadErr AgentHandle
  /-- `spec.loader.exec_module` was reached, i.e. the file contents ran -/
  moduleExecuted : Bool
  /-- `agent_class()` was invoked (so constructor side effects happened) -/
  instAttempted : Bool
  /-- keys assigned into the process-wide `sys.modules` registry -/
  registryWrites : List String
deriving Repr

/-- Python truthiness of a `str | None` value: `None` and `""` are falsy. -/
def truthyStr : Option String → Bool
  | none => false
  | some s => decide (s ≠ "")

/-- `getattr(module, name)` over the attribute list (names in a module
namespace are unique, so first match is the match). -/
def lookupAttr : List (String × PyObj) → String → Option PyObj
  | [], _ => none
  | (n, o) :: rest, nm => if n = nm then some o else lookupAttr rest nm

/-- The condition of the fallback scan in `load_agent` (base.py lines
168-174): `isinstance(obj, type) and obj is not AgentBase` with the nested
`hasattr(obj, "on_turn")` (a candidate failing the inner test is skipped and
the loop continues, so the three tests flatten to a conjunction). -/
def scanPred (o : PyObj) : Bool :=
  o.isType && !o.isAgentBase && o.hasOnTurn

/-- The fallback scan of `load_agent`: first attribute satisfying
`scanPred`, in `dir(module)` order. -/
def scanCandidate : List (String × PyObj) → Option PyObj
  | [] => none
  | (_, o) :: rest => if scanPred o then some o else scanCandidate rest

/-- Candidate resolution of `load_agent` (base.py lines 160-174): the
attribute named "Agent" if present, otherwise the fallback scan. -/
def findCandidate (attrs : List (String × PyObj)) : Option PyObj :=
  match lookupAttr attrs "Agent" with
  | some o => some o
  | none => scanCandidate attrs

/-- The GAME check of `load_agent` (base.py lines 181-188):
`if expected_game and agent_game: if agent_game != expected_game: raise`. -/
def gameMismatchCheck (expectedGame agentGame : Option String) : Bool :=
  truthyStr expectedGame && truthyStr agentGame && decide (agentGame ≠ expectedGame)

/-- `load_agent(agent_path, expected_game)` from base.py lines 122-200.
Branches in source order: path existence, `.py` suffix, module spec creation,
`sys.modules["user_agent"] = module` followed by module execution, candidate
resolution, GAME check, instantiation, post-instantiation `on_turn` check. -/
def loadAgent (inp : LoadInput) (expectedGame : Option String) : LoadOutcome :=
  if !inp.pathExists then
    ⟨.error .notFound, false, false, []⟩
  else if !inp.isPyFile then
    ⟨.error .invalidFormat, false, false, []⟩
  else if inp.specFails then
    ⟨.error .executionFailure, false, false, []⟩
  else if inp.mod.execFault then
    ⟨.error .executionFailure, true, false, ["user_agent"]⟩
  else
    match findCandidate inp.mod.attrs with
    | none => ⟨.error .contractViolation, true, false, ["user_agent"]⟩
    | some c =>
      if gameMismatchCheck expectedGame c.game then
        ⟨.error .gameMismatch, true, false, ["user_agent"]⟩
      else if c.callFails then
        ⟨.error .executionFailure, true, true, ["user_agent"]⟩
      else if c.instHasOnTurn && c.instOnTurnCallable then
        ⟨.ok ⟨c.instHasOnTurn, c.instOnTurnCallable, c.game⟩, true, true, ["user_agent"]⟩
      else
        ⟨.error .contractViolation, true, true, ["user_agent"]⟩

/-- The condition of the scan in `get_agent_game` (base.py lines 227-230):
`isinstance(obj, type) and hasattr(obj, "on_turn")` — note it does NOT
exclude `AgentBase`, unlike the loader's scan. -/
def peekPred (o : PyObj) : Bool :=
  o.isType && o.hasOnTurn

/-- The scan of `get_agent_game`: the first attribute that is a type with
`on_turn` makes the function return that attribute's GAME tag immediately. -/
def peekScan : List (String × PyObj) → Option (Option String)
  | [] => none
  | (_, o) :: rest => if peekPred o then some o.game else peekScan rest

/-- The body of the `try` block of `get_agent_game` (base.py lines 214-230):
it may propagate an exception (modelled as `Except.error`) when executing the
module raises; a failed spec creation is an early `return None` inside the
`try`, not an exception. -/
def getAgentGameTry (inp : LoadInput) : Except Unit (Option String) :=
  if inp.specFails then .ok none
  else if inp.mod.execFault then .error ()
  else
    match lookupAttr inp.mod.attrs "Agent" with
    | some o => .ok o.game
    | none =>
      match peekScan inp.mod.attrs with
      | some g => .ok g
      | none => .ok none

/-- `get_agent_game(agent_path)` from base.py lines 203-234: path checks,
then the `try` body with `except Exception: pass` swallowing any fault into a
`None` result. -/
def getAgentGame (inp : LoadInput) : Option String :=
  if !inp.pathExists || !inp.isPyFile then none
  else
    match getAgentGameTry inp with
    | .ok v => v
    | .error _ => none

/-!
Dispatch logic of the multi-game example agent
(`src/agentduel_agents/examples/multi_game_agent.py`), `Agent.on_turn`
lines 51-70 and `Agent.on_round_start` lines 44-49. Only the dispatch and
classification are embedded; the two game-specific handlers it forwards to
are outside the classified decision.
-/

/-- The fields of an `on_turn` payload that the dispatch of
`multi_game_agent.Agent.on_turn` reads: `game_state.get("phase")` and
membership of the key "your_dice". -/
structure MgTurnState where
  phase : Option String
  /-- `"your_dice" in game_state` -/
  hasYourDice : Bool
deriving DecidableEq, Repr

/-- Which game-specific handler `on_turn` forwards to. -/
inductive MgHandler where
  | liarsDice
  | splitOrSteal
deriving DecidableEq, Repr

/-- Game classification used by `on_turn` (multi_game_agent.py lines 59-65):
if `self.current_game_type` is `None`, payloads with a "your_dice" key are
classified "liars-dice" and EVERYTHING else defaults to "split-or-steal". -/
def classifyGame (currentGameType : Option String) (st : MgTurnState) : String :=
  match currentGameType with
  | some g => g
  | none => if st.hasYourDice then "liars-dice" else "split-or-steal"

/-- `Agent.on_turn` dispatch (multi_game_agent.py lines 51-70): classify the
payload, then forward to `_handle_liars_dice` when the classification is
"liars-dice" and to `_handle_split_or_steal` otherwise. There is no error
outcome: every payload is routed to one of the two handlers. -/
def mgOnTurnDispatch (currentGameType : Option String) (st : MgTurnState) :
    String × MgHandler :=
  let game := classifyGame currentGameType st
  (game, if game = "liars-dice" then .liarsDice else .splitOrSteal)

/-- `Agent.on_round_start` (multi_game_agent.py lines 44-49): the cached
game type becomes `round_info.get("game_id", "split-or-steal")` — a missing
`game_id` silently defaults to "split-or-steal". -/
def mgOnRoundStart (roundGameId : Option String) : String :=
  roundGameId.getD "split-or-steal"

/-! Helper lemmas about the loader's branches. -/

/-- A scan over attributes none of which satisfies `scanPred` finds nothing. -/
lemma scanCandidate_eq_none {attrs : List (String × PyObj)}
    (h : ∀ p ∈ attrs, scanPred p.2 = false) : scanCandidate attrs = none := by
  induction attrs with
  | nil => rfl
  | cons p rest ih =>
    have hp := h p (List.mem_cons_self p rest)
    simp only [scanCandidate, hp, Bool.false_eq_true, if_false]
    exact ih fun q hq => h q (List.mem_cons_of_mem p hq)

/-- Whatever `scanCandidate` returns satisfies `scanPred` and is preceded
only by attributes that do not. -/
lemma scanCandidate_eq_some {attrs : List (String × PyObj)} {o : PyObj}
    (h : scanCandidate attrs = some o) :
    ∃ l1 l2 n, attrs = l1 ++ (n, o) :: l2 ∧ scanPred o = true ∧
      ∀ q ∈ l1, scanPred q.2 = false := by
  induction attrs with
  | nil => simp [scanCandidate] at h
  | cons p rest ih =>
    by_cases hp : scanPred p.2 = true
    · refine ⟨[], rest, p.1, ?_, ?_, by simp⟩
      · simp only [scanCandidate, hp, if_true] at h
        obtain rfl := Option.some.inj h
        simp
      · simp only [scanCandidate, hp, if_true] at h
        obtain rfl := Option.some.inj h
        exact hp
    · simp only [scanCandidate, hp, if_false] at h
      obtain ⟨l1, l2, n, heq, hpred, hbefore⟩ := ih h
      refine ⟨p :: l1, l2, n, by simp [heq], hpred, ?_⟩
      intro q hq
      rcases List.mem_cons.mp hq with rfl | hq
      · exact Bool.not_eq_true _ ▸ hp
      · exact hbefore q hq

/-- Once the path checks pass and the module executes, `load_agent` is
determined by the resolved candidate. -/
lemma loadAgent_of_resolved {inp : LoadInput} {c : PyObj}
    (hex : inp.pathExists = true) (hpy : inp.isPyFile = true)
    (hspec : inp.specFails = false) (hfault : inp.mod.execFault = false)
    (hc : findCandidate inp.mod.attrs = some c) (exp : Option String) :
    loadAgent inp exp =
      if gameMismatchCheck exp c.game then
        ⟨.error .gameMismatch, true, false, ["user_agent"]⟩
      else if c.callFails then
        ⟨.error .executionFailure, true, true, ["user_agent"]⟩
      else if c.instHasOnTurn && c.instOnTurnCallable then
        ⟨.ok ⟨c.instHasOnTurn, c.instOnTurnCallable, c.game⟩, true, true, ["user_agent"]⟩
      else
        ⟨.error .contractViolation, true, true, ["user_agent"]⟩ := by
  simp [loadAgent, hex, hpy, hspec, hfault, hc]

/-- Inversion: a successful `load_agent` pins down every branch it took. -/
lemma loadAgent_result_ok {inp : LoadInput} {exp : Option String} {h : AgentHandle}
    (hok : (loadAgent inp exp).result = .ok h) :
    inp.pathExists = true ∧ inp.isPyFile = true ∧ inp.specFails = false ∧
    inp.mod.execFault = false ∧
    ∃ c, findCandidate inp.mod.attrs = some c ∧
      gameMismatchCheck exp c.game = false ∧ c.callFails = false ∧
      c.instHasOnTurn = true ∧ c.instOnTurnCallable = true ∧
      h = ⟨true, true, c.game⟩ := by
  by_cases hex : inp.pathExists = true
  case neg => simp [loadAgent, hex] at hok
  by_cases hpy : inp.isPyFile = true
  case neg => simp [loadAgent, hex, hpy] at hok
  by_cases hspec : inp.specFails = true
  case pos => simp [loadAgent, hex, hpy, hspec] at hok
  by_cases hfault : inp.mod.execFault = true
  case pos => simp [loadAgent, hex, hpy, hspec, hfault] at hok
  rw [Bool.not_eq_true] at hspec hfault
  cases hc : findCandidate inp.mod.attrs with
  | none => simp [loadAgent, hex, hpy, hspec, hfault, hc] at hok
  | some c =>
    rw [loadAgent_of_resolved hex hpy hspec hfault hc] at hok
    by_cases hmm : gameMismatchCheck exp c.game = true
    case pos => simp [hmm] at hok
    by_cases hcall : c.callFails = true
    case pos => simp [hmm, hcall] at hok
    by_cases hinst : (c.instHasOnTurn && c.instOnTurnCallable) = true
    case neg => simp [hmm, hcall, hinst] at hok
    simp only [hmm, hcall, hinst, Bool.false_eq_true, if_false, if_true] at hok
    obtain ⟨hi1, hi2⟩ := Bool.and_eq_true_iff.mp hinst
    refine ⟨hex, hpy, hspec, hfault,
      c, ?_, Bool.eq_false_iff.mpr hmm, Bool.eq_false_iff.mpr hcall, hi1, hi2, ?_⟩
    · rfl
    simp only [hi1, hi2] at hok
    exact (Except.ok.inj hok).symm

/-- A load whose path checks pass never reports the two path error kinds. -/
lemma loadAgent_no_path_errors {inp : LoadInput} (exp : Option String)
    (hex : inp.pathExists = true) (hpy : inp.isPyFile = true) :
    (loadAgent inp exp).result ≠ .error .notFound ∧
    (loadAgent inp exp).result ≠ .error .invalidFormat := by
  by_cases hspec : inp.specFails = true
  · simp [loadAgent, hex, hpy, hspec]
  · by_cases hfault : inp.mod.execFault = true
    · simp [loadAgent, hex, hpy, hspec, hfault]
    · rw [Bool.not_eq_true] at hspec hfault
      cases hc : findCandidate inp.mod.attrs with
      | none => simp [loadAgent, hex, hpy, hspec, hfault, hc]
      | some c =>
        rw [loadAgent_of_resolved hex hpy hspec hfault hc]
        by_cases hmm : gameMismatchCheck exp c.game = true <;>
        by_cases hcall : c.callFails = true <;>
        by_cases hinst : (c.instHasOnTurn && c.instOnTurnCallable) = true <;>
        simp [hmm, hcall, hinst, apply_ite]

/-- C1: for a module that resolves, parses and executes but has no attribute
named "Agent" and no top-level class exposing `on_turn`, `load_agent` fails
with the ContractViolation kind; conversely, every handle `load_agent`
returns has a present, callable `on_turn`, so no partially-usable handle is
ever returned. -/
theorem C1_no_onturn_contract_violation_and_no_partial_handle
    (inp : LoadInput) (exp : Option String) :
    (inp.pathExists = true → inp.isPyFile = true → inp.specFails = false →
      inp.mod.execFault = false →
      lookupAttr inp.mod.attrs "Agent" = none →
      (∀ p ∈ inp.mod.attrs, p.2.isType = true → p.2.hasOnTurn = false) →
      (loadAgent inp exp).result = .error .contractViolation) ∧
    (∀ h, (loadAgent inp exp).result = .ok h →
      h.onTurnPresent = true ∧ h.onTurnCallable = true) := by
  constructor
  · intro hex hpy hspec hfault hnoAgent hnoClass
    have hscan : scanCandidate inp.mod.attrs = none := by
      refine scanCandidate_eq_none fun p hp => ?_
      unfold scanPred
      by_cases ht : p.2.isType = true
      · simp [ht, hnoClass p hp ht]
      · simp [Bool.eq_false_iff.mpr ht]
    have hfind : findCandidate inp.mod.attrs = none := by
      simp [findCandidate, hnoAgent, hscan]
    simp [loadAgent, hex, hpy, hspec, hfault, hfind]
  · intro h hok
    obtain ⟨_, _, _, _, c, _, _, _, _, _, hh⟩ := loadAgent_result_ok hok
    subst hh
    exact ⟨rfl, rfl⟩

/-- C1 witness: a module whose only top-level attribute is a non-class
helper, with no "Agent" name, is rejected as a contract violation. -/
theorem C1_no_onturn_contract_violation_and_no_partial_handle_witness :
    (loadAgent
      ⟨true, true, false,
        ⟨false, [("helper", ⟨false, false, false, false, none, false, false, false⟩)]⟩⟩
      none).result = .error .contractViolation :=
  (C1_no_onturn_contract_violation_and_no_partial_handle
    ⟨true, true, false,
      ⟨false, [("helper", ⟨false, false, false, false, none, false, false, false⟩)]⟩⟩
    none).1 rfl rfl rfl rfl rfl (by decide)

/-- C2: a candidate whose declared GAME tag and the supplied expected game
are both non-empty and different makes `load_agent` fail with the
GameMismatch kind, and the candidate constructor is never invoked, so no
instantiation side effect occurs. -/
theorem C2_game_mismatch_before_instantiation
    (inp : LoadInput) (c : PyObj) (g e : String)
    (hex : inp.pathExists = true) (hpy : inp.isPyFile = true)
    (hspec : inp.specFails = false) (hfault : inp.mod.execFault = false)
    (hc : findCandidate inp.mod.attrs = some c)
    (hg : c.game = some g) (hgne : g ≠ "") (hene : e ≠ "") (hne : g ≠ e) :
    (loadAgent inp (some e)).result = .error .gameMismatch ∧
    (loadAgent inp (some e)).instAttempted = false := by
  have hmm : gameMismatchCheck (some e) c.game = true := by
    have h1 : truthyStr (some e) = true := by simp [truthyStr, hene]
    have h2 : truthyStr (some g) = true := by simp [truthyStr, hgne]
    simp [gameMismatchCheck, hg, h1, h2, Option.some.injEq, hne]
  rw [loadAgent_of_resolved hex hpy hspec hfault hc]
  simp [hmm]

/-- C2 witness: a "liars-dice" agent requested for "coin-flip" is rejected
without instantiation. -/
theorem C2_game_mismatch_before_instantiation_witness :
    (loadAgent
      ⟨true, true, false,
        ⟨false, [("Agent", ⟨true, false, false, true, some "liars-dice", false, true, true⟩)]⟩⟩
      (some "coin-flip")).result = .error .gameMismatch ∧
    (loadAgent
      ⟨true, true, false,
        ⟨false, [("Agent", ⟨true, false, false, true, some "liars-dice", false, true, true⟩)]⟩⟩
      (some "coin-flip")).instAttempted = false :=
  C2_game_mismatch_before_instantiation
    ⟨true, true, false,
      ⟨false, [("Agent", ⟨true, false, false, true, some "liars-dice", false, true, true⟩)]⟩⟩
    ⟨true, false, false, true, some "liars-dice", false, true, true⟩
    "liars-dice" "coin-flip" rfl rfl rfl rfl rfl rfl
    (by decide) (by decide) (by decide)

/-- C8: `load_agent` reports the NotFound kind exactly when the resolved
path does not exist, and the InvalidFormat kind exactly when the path exists
but does not end in ".py"; in both cases the file contents are never
executed. -/
theorem C8_path_error_kinds (inp : LoadInput) (exp : Option String) :
    ((loadAgent inp exp).result = .error .notFound ↔ inp.pathExists = false) ∧
    ((loadAgent inp exp).result = .error .invalidFormat ↔
      inp.pathExists = true ∧ inp.isPyFile = false) ∧
    ((inp.pathExists = false ∨ inp.isPyFile = false) →
      (loadAgent inp exp).moduleExecuted = false) := by
  by_cases hex : inp.pathExists = true
  · by_cases hpy : inp.isPyFile = true
    · obtain ⟨h1, h2⟩ := loadAgent_no_path_errors exp hex hpy
      refine ⟨⟨fun h => absurd h h1, fun h => by rw [h] at hex; cases hex⟩,
        ⟨fun h => absurd h h2, fun h => by rw [h.2] at hpy; cases hpy⟩, ?_⟩
      rintro (h | h)
      · rw [h] at hex; cases hex
      · rw [h] at hpy; cases hpy
    · rw [Bool.not_eq_true] at hpy
      simp [loadAgent, hex, hpy]
  · rw [Bool.not_eq_true] at hex
    simp [loadAgent, hex]

/-- C8 witness: a missing path is NotFound without execution; an existing
non-.py path is InvalidFormat without execution. -/
theorem C8_path_error_kinds_witness :
    (loadAgent ⟨false, true, false, ⟨false, []⟩⟩ none).result = .error .notFound ∧
    (loadAgent ⟨false, true, false, ⟨false, []⟩⟩ none).moduleExecuted = false ∧
    (loadAgent ⟨true, false, false, ⟨false, []⟩⟩ none).result = .error .invalidFormat ∧
    (loadAgent ⟨true, false, false, ⟨false, []⟩⟩ none).moduleExecuted = false :=
  ⟨(C8_path_error_kinds ⟨false, true, false, ⟨false, []⟩⟩ none).1.mpr rfl,
   (C8_path_error_kinds ⟨false, true, false, ⟨false, []⟩⟩ none).2.2 (Or.inl rfl),
   (C8_path_error_kinds ⟨true, false, false, ⟨false, []⟩⟩ none).2.1.mpr ⟨rfl, rfl⟩,
   (C8_path_error_kinds ⟨true, false, false, ⟨false, []⟩⟩ none).2.2 (Or.inr rfl)⟩

/-- C9: the name "Agent" takes absolute precedence: whenever a module binds
it, that attribute is the candidate (the structural fallback scan never
runs), and if it cannot be instantiated or its instance lacks a callable
`on_turn`, `load_agent` fails — even if another top-level class of the same
module satisfies the contract. -/
theorem C9_agent_name_absolute_precedence
    (inp : LoadInput) (exp : Option String) (a : PyObj)
    (hA : lookupAttr inp.mod.attrs "Agent" = some a)
    (hbad : a.callFails = true ∨ (a.instHasOnTurn && a.instOnTurnCallable) = false) :
    findCandidate inp.mod.attrs = some a ∧
    ∀ h, (loadAgent inp exp).result ≠ .ok h := by
  have hfind : findCandidate inp.mod.attrs = some a := by
    simp [findCandidate, hA]
  refine ⟨hfind, fun h hok => ?_⟩
  obtain ⟨_, _, _, _, c, hc, _, hcall, hi1, hi2, _⟩ := loadAgent_result_ok hok
  rw [hfind] at hc
  obtain rfl := Option.some.inj hc
  rcases hbad with hb | hb
  · rw [hcall] at hb; cases hb
  · rw [hi1, hi2] at hb; cases hb

/-- C9 witness: a module binding "Agent" to a non-instantiable value is
rejected although a conforming class "ZGood" is also present. -/
theorem C9_agent_name_absolute_precedence_witness :
    findCandidate
      [("Agent", ⟨false, false, false, false, none, true, false, false⟩),
       ("ZGood", ⟨true, false, false, true, none, false, true, true⟩)]
      = some ⟨false, false, false, false, none, true, false, false⟩ ∧
    (loadAgent
      ⟨true, true, false,
        ⟨false,
         [("Agent", ⟨false, false, false, false, none, true, false, false⟩),
          ("ZGood", ⟨true, false, false, true, none, false, true, true⟩)]⟩⟩
      none).result ≠ .ok ⟨true, true, none⟩ :=
  ⟨(C9_agent_name_absolute_precedence
      ⟨true, true, false,
        ⟨false,
         [("Agent", ⟨false, false, false, false, none, true, false, false⟩),
          ("ZGood", ⟨true, false, false, true, none, false, true, true⟩)]⟩⟩
      none ⟨false, false, false, false, none, true, false, false⟩ rfl (Or.inl rfl)).1,
   (C9_agent_name_absolute_precedence
      ⟨true, true, false,
        ⟨false,
         [("Agent", ⟨false, false, false, false, none, true, false, false⟩),
          ("ZGood", ⟨true, false, false, true, none, false, true, true⟩)]⟩⟩
      none ⟨false, false, false, false, none, true, false, false⟩ rfl (Or.inl rfl)).2
     ⟨true, true, none⟩⟩

/-- C10: the GAME check is skipped on falsiness, not absence: if the
candidate declares GAME as the empty string, or the expected game is
supplied as the empty string, the load succeeds for every value of the other
side (given a well-behaved candidate), despite the two being unequal. -/
theorem C10_empty_string_skips_game_check
    (inp : LoadInput) (exp : Option String) (c : PyObj)
    (hex : inp.pathExists = true) (hpy : inp.isPyFile = true)
    (hspec : inp.specFails = false) (hfault : inp.mod.execFault = false)
    (hc : findCandidate inp.mod.attrs = some c)
    (hfalsy : c.game = some "" ∨ exp = some "")
    (hcall : c.callFails = false)
    (hi1 : c.instHasOnTurn = true) (hi2 : c.instOnTurnCallable = true) :
    (loadAgent inp exp).result = .ok ⟨true, true, c.game⟩ := by
  have hmm : gameMismatchCheck exp c.game = false := by
    rcases hfalsy with hf | hf <;> simp [gameMismatchCheck, truthyStr, hf]
  rw [loadAgent_of_resolved hex hpy hspec hfault hc]
  simp [hmm, hcall, hi1, hi2]

/-- C10 witness: a candidate declaring `GAME = ""` loads successfully even
when the caller expects "liars-dice". -/
theorem C10_empty_string_skips_game_check_witness :
    (loadAgent
      ⟨true, true, false,
        ⟨false, [("Agent", ⟨true, false, false, true, some "", false, true, true⟩)]⟩⟩
      (some "liars-dice")).result = .ok ⟨true, true, some ""⟩ :=
  C10_empty_string_skips_game_check
    ⟨true, true, false,
      ⟨false, [("Agent", ⟨true, false, false, true, some "", false, true, true⟩)]⟩⟩
    (some "liars-dice")
    ⟨true, false, false, true, some "", false, true, true⟩
    rfl rfl rfl rfl rfl (Or.inl rfl) rfl rfl rfl

/-- C3 counterexample: the fallback scan of `load_agent` does NOT exclude
the contract protocol type. A module importing `AgentProtocol` (a type with
`on_turn` that is not `AgentBase`) ahead of a conforming user class in
`dir` order has the contract-owned protocol selected as the candidate, so
the load fails at instantiation instead of loading the user class. -/
theorem C3_scan_selects_protocol_counterexample :
    findCandidate
      [("AgentProtocol", ⟨true, false, true, true, none, true, false, false⟩),
       ("MyAgent", ⟨true, false, false, true, some "liars-dice", false, true, true⟩)]
      = some ⟨true, false, true, true, none, true, false, false⟩ ∧
    PyObj.isAgentProtocol ⟨true, false, true, true, none, true, false, false⟩ = true ∧
    (loadAgent
      ⟨true, true, false,
        ⟨false,
         [("AgentProtocol", ⟨true, false, true, true, none, true, false, false⟩),
          ("MyAgent", ⟨true, false, false, true, some "liars-dice", false, true, true⟩)]⟩⟩
      none).result = .error .executionFailure :=
  ⟨rfl, rfl, rfl⟩

/-- C3 amended: `load_agent` selects the attribute named "Agent" when
present; only if that name is absent does it scan the remaining top-level
attributes in `dir` order, picking the first type that exposes `on_turn`,
excluding ONLY the contract base class `AgentBase` (the protocol/reference
type `AgentProtocol` is not excluded). -/
theorem C3_amended_candidate_resolution (attrs : List (String × PyObj)) :
    (∀ a, lookupAttr attrs "Agent" = some a → findCandidate attrs = some a) ∧
    (lookupAttr attrs "Agent" = none →
      ∀ o, findCandidate attrs = some o →
        ∃ l1 l2 n, attrs = l1 ++ (n, o) :: l2 ∧
          o.isType = true ∧ o.isAgentBase = false ∧ o.hasOnTurn = true ∧
          ∀ q ∈ l1, (q.2.isType && !q.2.isAgentBase && q.2.hasOnTurn) = false) := by
  constructor
  · intro a hA
    simp [findCandidate, hA]
  · intro hA o ho
    simp only [findCandidate, hA] at ho
    obtain ⟨l1, l2, n, heq, hpred, hbefore⟩ := scanCandidate_eq_some ho
    unfold scanPred at hpred
    obtain ⟨⟨ht, hb⟩, hot⟩ :
        (o.isType = true ∧ o.isAgentBase = false) ∧ o.hasOnTurn = true := by
      simpa [Bool.and_eq_true, Bool.not_eq_true'] using hpred
    exact ⟨l1, l2, n, heq, ht, hb, hot, fun q hq => hbefore q hq⟩

/-- C3 amended witness: with no "Agent" name, the scan returns the first
type with `on_turn` that is not `AgentBase`, here skipping `AgentBase`
itself. -/
theorem C3_amended_candidate_resolution_witness :
    findCandidate
      [("AgentBase", ⟨true, true, false, true, none, false, true, true⟩),
       ("CoinAgent", ⟨true, false, false, true, some "coin-flip", false, true, true⟩)]
      = some ⟨true, false, false, true, some "coin-flip", false, true, true⟩ ∧
    ∃ l1 l2 n,
      ([("AgentBase", ⟨true, true, false, true, none, false, true, true⟩),
        ("CoinAgent", ⟨true, false, false, true, some "coin-flip", false, true, true⟩)]
        : List (String × PyObj)) = l1 ++ (n, ⟨true, false, false, true, some "coin-flip", false, true, true⟩) :: l2 ∧
      PyObj.isType ⟨true, false, false, true, some "coin-flip", false, true, true⟩ = true ∧
      PyObj.isAgentBase ⟨true, false, false, true, some "coin-flip", false, true, true⟩ = false ∧
      PyObj.hasOnTurn ⟨true, false, false, true, some "coin-flip", false, true, true⟩ = true ∧
      ∀ q ∈ l1, (q.2.isType && !q.2.isAgentBase && q.2.hasOnTurn) = false :=
  ⟨rfl,
   (C3_amended_candidate_resolution
      [("AgentBase", ⟨true, true, false, true, none, false, true, true⟩),
       ("CoinAgent", ⟨true, false, false, true, some "coin-flip", false, true, true⟩)]).2
     rfl ⟨true, false, false, true, some "coin-flip", false, true, true⟩ rfl⟩

/-- C4 counterexample: `get_agent_game`'s scan does not exclude `AgentBase`,
while `load_agent`'s scan does. On a module importing `AgentBase` ahead of a
conforming class declaring `GAME = "liars-dice"`, the load succeeds with tag
"liars-dice" while the peek reports `None`: the two disagree. -/
theorem C4_peek_load_disagree_counterexample :
    (loadAgent
      ⟨true, true, false,
        ⟨false,
         [("AgentBase", ⟨true, true, false, true, none, false, true, true⟩),
          ("DiceAgent", ⟨true, false, false, true, some "liars-dice", false, true, true⟩)]⟩⟩
      none).result = .ok ⟨true, true, some "liars-dice"⟩ ∧
    getAgentGame
      ⟨true, true, false,
        ⟨false,
         [("AgentBase", ⟨true, true, false, true, none, false, true, true⟩),
          ("DiceAgent", ⟨true, false, false, true, some "liars-dice", false, true, true⟩)]⟩⟩
      = none ∧
    some "liars-dice" ≠ (none : Option String) :=
  ⟨rfl, rfl, by decide⟩

/-- When no attribute is the contract base class with `on_turn`, the peek
scan agrees with the loader scan (it returns exactly the GAME tag of the
object the loader scan would select). -/
lemma peekScan_agrees {attrs : List (String × PyObj)}
    (h : ∀ p ∈ attrs, (p.2.isType && p.2.isAgentBase && p.2.hasOnTurn) = false) :
    peekScan attrs = Option.map PyObj.game (scanCandidate attrs) := by
  induction attrs with
  | nil => rfl
  | cons p rest ih =>
    obtain ⟨n0, o0⟩ := p
    have hp : (o0.isType && o0.isAgentBase && o0.hasOnTurn) = false :=
      h (n0, o0) (List.mem_cons_self _ rest)
    have hrest := fun q hq => h q (List.mem_cons_of_mem (n0, o0) hq)
    by_cases hs : scanPred o0 = true
    · have hpk : peekPred o0 = true := by
        unfold scanPred at hs
        unfold peekPred
        simp only [Bool.and_eq_true] at hs ⊢
        exact ⟨hs.1.1, hs.2⟩
      simp only [peekScan, scanCandidate, hpk, hs, if_true]
      rfl
    · have hs0 : scanPred o0 = false := Bool.eq_false_iff.mpr hs
      have hpk : peekPred o0 = false := by
        unfold scanPred at hs0
        unfold peekPred
        by_cases ht : o0.isType = true
        · by_cases hot : o0.hasOnTurn = true
          · have hbase : o0.isAgentBase = true := by
              by_cases hb : o0.isAgentBase = true
              · exact hb
              · rw [ht, hot, Bool.eq_false_iff.mpr hb] at hs0
                cases hs0
            rw [ht, hot, hbase] at hp
            cases hp
          · simp [Bool.eq_false_iff.mpr hot]
        · simp [Bool.eq_false_iff.mpr ht]
      simp only [peekScan, scanCandidate, hpk, hs0, Bool.false_eq_true, if_false]
      exact ih hrest

/-- C4 amended: `get_agent_game` returns exactly the tag of the candidate a
successful `load_agent` instantiates, for every module that either binds the
name "Agent" or exposes no attribute that is the contract base class with
`on_turn` (the peek scan, unlike the loader scan, does not exclude
`AgentBase`, which is the only way the two can disagree). -/
theorem C4_amended_peek_matches_load
    (inp : LoadInput) (exp : Option String) (h : AgentHandle)
    (hside : lookupAttr inp.mod.attrs "Agent" ≠ none ∨
      ∀ p ∈ inp.mod.attrs, (p.2.isType && p.2.isAgentBase && p.2.hasOnTurn) = false)
    (hok : (loadAgent inp exp).result = .ok h) :
    getAgentGame inp = h.game := by
  obtain ⟨hex, hpy, hspec, hfault, c, hc, _, _, _, _, hh⟩ := loadAgent_result_ok hok
  subst hh
  cases hA : lookupAttr inp.mod.attrs "Agent" with
  | some a =>
    have : c = a := by
      simp only [findCandidate, hA] at hc
      exact (Option.some.inj hc).symm
    subst this
    simp [getAgentGame, getAgentGameTry, hex, hpy, hspec, hfault, hA]
  | none =>
    rcases hside with hside | hside
    · exact absurd hA hside
    · have hscan : scanCandidate inp.mod.attrs = some c := by
        simpa only [findCandidate, hA] using hc
      have hpeek : peekScan inp.mod.attrs = some c.game := by
        rw [peekScan_agrees hside, hscan]
        rfl
      simp [getAgentGame, getAgentGameTry, hex, hpy, hspec, hfault, hA, hpeek]

/-- C4 amended witness: on a module binding "Agent" with
`GAME = "coin-flip"`, the peek reports exactly the loaded handle's tag. -/
theorem C4_amended_peek_matches_load_witness :
    getAgentGame
      ⟨true, true, false,
        ⟨false, [("Agent", ⟨true, false, false, true, some "coin-flip", false, true, true⟩)]⟩⟩
      = some "coin-flip" :=
  C4_amended_peek_matches_load
    ⟨true, true, false,
      ⟨false, [("Agent", ⟨true, false, false, true, some "coin-flip", false, true, true⟩)]⟩⟩
    none ⟨true, true, some "coin-flip"⟩
    (Or.inl (by decide)) rfl

/-- C5: `get_agent_game` swallows every fault and reports absent instead of
raising: a non-existent path, a non-.py path, a module whose execution
faults, and a module with no candidate all yield `None`, and whenever the
body of its `try` block would propagate an exception the function still
returns `None`. -/
theorem C5_peek_never_raises (inp : LoadInput) :
    (inp.pathExists = false → getAgentGame inp = none) ∧
    (inp.isPyFile = false → getAgentGame inp = none) ∧
    (inp.mod.execFault = true → getAgentGame inp = none) ∧
    (inp.specFails = true → getAgentGame inp = none) ∧
    (lookupAttr inp.mod.attrs "Agent" = none → peekScan inp.mod.attrs = none →
      getAgentGame inp = none) ∧
    (∀ f, getAgentGameTry inp = .error f → getAgentGame inp = none) := by
  have hpath : ∀ inp2 : LoadInput,
      inp2.pathExists = false ∨ inp2.isPyFile = false → getAgentGame inp2 = none := by
    intro inp2 hor
    rcases hor with h | h <;> simp [getAgentGame, h]
  refine ⟨?_, ?_, ?_, ?_, ?_, ?_⟩
  · intro h
    exact hpath inp (Or.inl h)
  · intro h
    exact hpath inp (Or.inr h)
  · intro hfault
    by_cases hex : inp.pathExists = true
    · by_cases hpy : inp.isPyFile = true
      · by_cases hspec : inp.specFails = true
        · simp [getAgentGame, getAgentGameTry, hex, hpy, hspec]
        · simp [getAgentGame, getAgentGameTry, hex, hpy,
            Bool.eq_false_iff.mpr hspec, hfault]
      · exact hpath inp (Or.inr (Bool.eq_false_iff.mpr hpy))
    · exact hpath inp (Or.inl (Bool.eq_false_iff.mpr hex))
  · intro hspec
    by_cases hex : inp.pathExists = true
    · by_cases hpy : inp.isPyFile = true
      · simp [getAgentGame, getAgentGameTry, hex, hpy, hspec]
      · exact hpath inp (Or.inr (Bool.eq_false_iff.mpr hpy))
    · exact hpath inp (Or.inl (Bool.eq_false_iff.mpr hex))
  · intro hA hpk
    by_cases hex : inp.pathExists = true
    · by_cases hpy : inp.isPyFile = true
      · by_cases hspec : inp.specFails = true
        · simp [getAgentGame, getAgentGameTry, hex, hpy, hspec]
        · by_cases hfault : inp.mod.execFault = true
          · simp [getAgentGame, getAgentGameTry, hex, hpy,
              Bool.eq_false_iff.mpr hspec, hfault]
          · simp [getAgentGame, getAgentGameTry, hex, hpy,
              Bool.eq_false_iff.mpr hspec, Bool.eq_false_iff.mpr hfault, hA, hpk]
      · exact hpath inp (Or.inr (Bool.eq_false_iff.mpr hpy))
    · exact hpath inp (Or.inl (Bool.eq_false_iff.mpr hex))
  · intro f herr
    by_cases hex : inp.pathExists = true
    · by_cases hpy : inp.isPyFile = true
      · simp [getAgentGame, hex, hpy, herr]
      · exact hpath inp (Or.inr (Bool.eq_false_iff.mpr hpy))
    · exact hpath inp (Or.inl (Bool.eq_false_iff.mpr hex))

/-- C5 witness: a faulting module and a missing path both peek to `None`. -/
theorem C5_peek_never_raises_witness :
    getAgentGame ⟨true, true, false, ⟨true, []⟩⟩ = none ∧
    getAgentGame ⟨false, true, false, ⟨false, []⟩⟩ = none :=
  ⟨(C5_peek_never_raises ⟨true, true, false, ⟨true, []⟩⟩).2.2.1 rfl,
   (C5_peek_never_raises ⟨false, true, false, ⟨false, []⟩⟩).1 rfl⟩

/-- C6: the multi-game agent does NOT surface unclassifiable payloads. On a
`TurnState` carrying none of the distinguishing fields (no "your_dice" key,
no usable phase) and with no cached game type, `on_turn` silently classifies
the payload as "split-or-steal" and routes it to that handler instead of
raising a ContractViolation-class failure; likewise `on_round_start` with no
`game_id` silently caches the default "split-or-steal". The dispatch has no
error outcome at all. -/
theorem C6_silent_default_on_ambiguous_payload :
    mgOnTurnDispatch none ⟨none, false⟩ = ("split-or-steal", MgHandler.splitOrSteal) ∧
    classifyGame none ⟨none, false⟩ = "split-or-steal" ∧
    mgOnRoundStart none = "split-or-steal" :=
  ⟨rfl, rfl, rfl⟩

/-- C7 counterexample: `load_agent` DOES mutate the process-wide module
registry: every load that reaches module evaluation assigns
`sys.modules["user_agent"]`, here even on a fully successful load, so two
successive loads share that registry slot. -/
theorem C7_registry_write_counterexample :
    (loadAgent
      ⟨true, true, false,
        ⟨false, [("Agent", ⟨true, false, false, true, none, false, true, true⟩)]⟩⟩
      none).registryWrites = ["user_agent"] ∧
    (loadAgent
      ⟨true, true, false,
        ⟨false, [("Agent", ⟨true, false, false, true, none, false, true, true⟩)]⟩⟩
      none).result = .ok ⟨true, true, none⟩ :=
  ⟨rfl, rfl⟩

/-- C7 amended: the module is evaluated in a fresh module object (so its
symbols do not collide with the host's), but every call of `load_agent` that
passes the path and spec checks writes that module into the process-wide
`sys.modules` registry under the fixed key "user_agent" (before executing
it, so even a faulting module is left registered), replacing any previous
entry with that key; calls failing the path or spec checks leave the
registry untouched. -/
theorem C7_amended_fixed_registry_key
    (inp : LoadInput) (exp : Option String) :
    (inp.pathExists = true → inp.isPyFile = true → inp.specFails = false →
      (loadAgent inp exp).registryWrites = ["user_agent"]) ∧
    ((inp.pathExists = false ∨ inp.isPyFile = false ∨ inp.specFails = true) →
      (loadAgent inp exp).registryWrites = []) := by
  constructor
  · intro hex hpy hspec
    by_cases hfault : inp.mod.execFault = true
    · simp [loadAgent, hex, hpy, hspec, hfault]
    · cases hc : findCandidate inp.mod.attrs with
      | none =>
        simp [loadAgent, hex, hpy, hspec, Bool.eq_false_iff.mpr hfault, hc]
      | some c =>
        rw [loadAgent_of_resolved hex hpy hspec (Bool.eq_false_iff.mpr hfault) hc]
        by_cases hmm : gameMismatchCheck exp c.game = true <;>
        by_cases hcall : c.callFails = true <;>
        by_cases hinst : (c.instHasOnTurn && c.instOnTurnCallable) = true <;>
        simp [hmm, hcall, hinst, apply_ite]
  · rintro (h | h | h)
    · simp [loadAgent, h]
    · by_cases hex : inp.pathExists = true
      · simp [loadAgent, hex, h]
      · simp [loadAgent, Bool.eq_false_iff.mpr hex]
    · by_cases hex : inp.pathExists = true
      · by_cases hpy : inp.isPyFile = true
        · simp [loadAgent, hex, hpy, h]
        · simp [loadAgent, hex, Bool.eq_false_iff.mpr hpy]
      · simp [loadAgent, Bool.eq_false_iff.mpr hex]

/-- C7 amended witness: a failing (faulting-module) load still registers the
key, and a missing-path load does not. -/
theorem C7_amended_fixed_registry_key_witness :
    (loadAgent ⟨true, true, false, ⟨true, []⟩⟩ none).registryWrites = ["user_agent"] ∧
    (loadAgent ⟨false, false, false, ⟨false, []⟩⟩ none).registryWrites = [] :=
  ⟨(C7_amended_fixed_registry_key ⟨true, true, false, ⟨true, []⟩⟩ none).1 rfl rfl rfl,
   (C7_amended_fixed_registry_key ⟨false, false, false, ⟨false, []⟩⟩ none).2 (Or.inl rfl)⟩

end AgentDuel
